import Mathlib

/-!
Shallow embedding of the core of the `laff` service (package `service`,
file `service.go`, plus its use from `api.go`), for checking the
natural-language specification against the code.

The embedding models:
  * the response-handling logic of `fetchName` and `fetchJoke` (the HTTP
    transport itself is abstracted: a fetch is given the upstream's
    response, i.e. its status code, the `Retry-After` header value, and
    the result of `json.Unmarshal` on its body);
  * the URL construction of `encodeJokeURL` (Go's `url.Values.Encode`
    sorts keys alphabetically and percent-escapes each value in query
    mode, which is spelled out here);
  * the front-door `Joke` operation as a function from the two channel
    caches (FIFO lists), the cancellation flag and the upstream
    responses to a result, the new channel states, and the trace of
    upstream fetches issued;
  * the per-iteration error handling of the background name-producer
    and joke-composer goroutines of `RunCache` as step functions from
    the error counters and a fetch outcome to the updated counter and
    the action the goroutine takes next;
  * the pacing-interval computation of `RunCache`
    (`time.Duration((60 / (6 / ls.numWorkers))) * time.Second`), with
    Go's runtime panic on integer division by zero modelled as `none`.

Go `select` semantics: when several cases are ready, Go chooses among
them pseudo-randomly.  In `Joke` the outer select has the `ctx.Done()`
case and the `jokeChan` receive case; when both are ready the choice is
modelled by the explicit Boolean `selChoice` in the call environment.
-/

namespace Laff

/-- `maxErrs` from `service.go`: if the cache is erroring out
consistently, shut it down. -/
def maxErrs : Nat := 50

/-- `dfltRetry` from `service.go`: wait this many seconds to retry if
the retry header is not parsed. -/
def dfltRetry : Int := 90

/-- The joke-service base URL constant `jokeURL` from `service.go`. -/
def jokeURL : String := "http://api.icndb.com/jokes/random?"

/-- The name-service URL constant `nameURL` from `service.go`. -/
def nameURL : String := "http://uinames.com/api/"

/-- `NameResp` from `service.go`: the unmarshalled name-service
response. -/
structure NameResp where
  Name : String
  Surname : String
  Gender : String
  Region : String
deriving Repr, DecidableEq

/-- `JokeValue` from `service.go`: the nested part of the joke
response. -/
structure JokeValue where
  ID : Int
  Joke : String
  Categories : List String
deriving Repr, DecidableEq

/-- `JokeResp` from `service.go`: the unmarshalled joke-service
response.  The Go field `Type` is called `TypeField` here because
`Type` is reserved in Lean. -/
structure JokeResp where
  TypeField : String
  Value : JokeValue
deriving Repr, DecidableEq

/-- The errors the service layer can produce, one constructor per
distinct error the Go code builds:
`rateLimitError{retry}` (the distinguished 429 error of `fetchName`),
the `fmt.Errorf("invoking name fetch got HTTP status %d (%s)", ...)`
generic failure carrying status code and reason phrase, its joke-fetch
counterpart, the two `json.Unmarshal` wrap errors, and
`context.Canceled`. -/
inductive SvcError where
  | rateLimitError (retry : Int)
  | nameStatusError (code : Nat) (reason : String)
  | jokeStatusError (code : Nat) (reason : String)
  | nameUnmarshalError
  | jokeUnmarshalError
  | contextCanceled
deriving Repr, DecidableEq

/-- Go's `http.StatusText`: the reason phrase registered for an HTTP
status code, `""` for unknown codes. -/
def statusText (code : Nat) : String :=
  match code with
  | 100 => "Continue"
  | 101 => "Switching Protocols"
  | 102 => "Processing"
  | 103 => "Early Hints"
  | 200 => "OK"
  | 201 => "Created"
  | 202 => "Accepted"
  | 203 => "Non-Authoritative Information"
  | 204 => "No Content"
  | 205 => "Reset Content"
  | 206 => "Partial Content"
  | 207 => "Multi-Status"
  | 208 => "Already Reported"
  | 226 => "IM Used"
  | 300 => "Multiple Choices"
  | 301 => "Moved Permanently"
  | 302 => "Found"
  | 303 => "See Other"
  | 304 => "Not Modified"
  | 305 => "Use Proxy"
  | 307 => "Temporary Redirect"
  | 308 => "Permanent Redirect"
  | 400 => "Bad Request"
  | 401 => "Unauthorized"
  | 402 => "Payment Required"
  | 403 => "Forbidden"
  | 404 => "Not Found"
  | 405 => "Method Not Allowed"
  | 406 => "Not Acceptable"
  | 407 => "Proxy Authentication Required"
  | 408 => "Request Timeout"
  | 409 => "Conflict"
  | 410 => "Gone"
  | 411 => "Length Required"
  | 412 => "Precondition Failed"
  | 413 => "Request Entity Too Large"
  | 414 => "Request URI Too Long"
  | 415 => "Unsupported Media Type"
  | 416 => "Requested Range Not Satisfiable"
  | 417 => "Expectation Failed"
  | 418 => "I\x27m a teapot"
  | 421 => "Misdirected Request"
  | 422 => "Unprocessable Entity"
  | 423 => "Locked"
  | 424 => "Failed Dependency"
  | 425 => "Too Early"
  | 426 => "Upgrade Required"
  | 428 => "Precondition Required"
  | 429 => "Too Many Requests"
  | 431 => "Request Header Fields Too Large"
  | 451 => "Unavailable For Legal Reasons"
  | 500 => "Internal Server Error"
  | 501 => "Not Implemented"
  | 502 => "Bad Gateway"
  | 503 => "Service Unavailable"
  | 504 => "Gateway Timeout"
  | 505 => "HTTP Version Not Supported"
  | 506 => "Variant Also Negotiates"
  | 507 => "Insufficient Storage"
  | 508 => "Loop Detected"
  | 510 => "Not Extended"
  | 511 => "Network Authentication Required"
  | _ => ""

/-- Digit-string parsing helper for `goAtoi`: `none` unless the list is
a non-empty run of decimal digits. -/
def digitsToNat? (cs : List Char) : Option Nat :=
  match cs with
  | [] => none
  | _ => cs.foldl
      (fun acc c =>
        match acc with
        | none => none
        | some n => if c.isDigit then some (n * 10 + (c.toNat - 48)) else none)
      (some 0)

/-- Go's `strconv.Atoi` (base 10, 64-bit `int`): an optional leading
sign followed by at least one digit; `none` on the empty string, any
other character, or a value outside the 64-bit signed range. -/
def goAtoi (s : String) : Option Int :=
  match s.data with
  | [] => none
  | c :: rest =>
    let signed : Bool × List Char :=
      if c = Char.ofNat 45 then (true, rest)
      else if c = Char.ofNat 43 then (false, rest)
      else (false, c :: rest)
    match digitsToNat? signed.2 with
    | none => none
    | some n =>
      let v : Int := if signed.1 then -(n : Int) else (n : Int)
      if v < -(2 ^ 63) ∨ 2 ^ 63 ≤ v then none else some v

/-- The upstream name-service response as `fetchName` sees it: the HTTP
status code, the value of the `Retry-After` header (`""` when absent,
as `Header.Get` returns), and the result of `json.Unmarshal` on the
body (`none` on a decode error). -/
structure NameHttpResp where
  status : Nat
  retryAfter : String
  decoded : Option NameResp
deriving Repr

/-- The upstream joke-service response as `fetchJoke` sees it. -/
structure JokeHttpResp where
  status : Nat
  decoded : Option JokeResp
deriving Repr

/-- The response-handling logic of `LaffService.fetchName`
(`service.go` lines 283-311): on a non-200 status, a 429 yields
`rateLimitError` with the parsed `Retry-After` value or `dfltRetry`
when parsing fails, any other status yields the generic error carrying
the status code and `http.StatusText`; on 200 the body is unmarshalled
and returned. -/
def fetchNameCore (resp : NameHttpResp) : Except SvcError NameResp :=
  if resp.status ≠ 200 then
    if resp.status = 429 then
      let delay : Int :=
        match goAtoi resp.retryAfter with
        | some v => v
        | none => dfltRetry
      .error (.rateLimitError delay)
    else
      .error (.nameStatusError resp.status (statusText resp.status))
  else
    match resp.decoded with
    | none => .error .nameUnmarshalError
    | some n => .ok n

/-- The response-handling logic of `LaffService.fetchJoke`
(`service.go` lines 338-352): any non-200 status yields the generic
joke-fetch error with status code and reason phrase (there is no 429
special case here); on 200 the body is unmarshalled and the `Value.Joke`
field is returned, with no inspection of the `Type` field and no check
that the joke text is non-empty. -/
def fetchJokeCore (resp : JokeHttpResp) : Except SvcError String :=
  if resp.status ≠ 200 then
    .error (.jokeStatusError resp.status (statusText resp.status))
  else
    match resp.decoded with
    | none => .error .jokeUnmarshalError
    | some j => .ok j.Value.Joke

/-- UTF-8 encoding of one code point, as the byte values of the Go
string the names are drawn from. -/
def utf8Bytes (c : Char) : List Nat :=
  let n := c.toNat
  if n < 128 then [n]
  else if n < 2048 then [192 + n / 64, 128 + n % 64]
  else if n < 65536 then [224 + n / 4096, 128 + (n / 64) % 64, 128 + n % 64]
  else [240 + n / 262144, 128 + (n / 4096) % 64, 128 + (n / 64) % 64, 128 + n % 64]

/-- Uppercase hexadecimal digits, as used by Go's URL escaping. -/
def upperHexDigit (n : Nat) : Char :=
  if n < 10 then Char.ofNat (48 + n) else Char.ofNat (55 + n)

/-- Go's query-component escaping of a single byte
(`url.QueryEscape` / `Values.Encode` mode): ASCII letters, digits and
`-`, `_`, `.`, `~` pass through, a space becomes `+`, and every other
byte becomes `%XX` with uppercase hex. -/
def escByte (b : Nat) : List Char :=
  if b = 32 then [Char.ofNat 43]
  else if (65 ≤ b ∧ b ≤ 90) ∨ (97 ≤ b ∧ b ≤ 122) ∨ (48 ≤ b ∧ b ≤ 57)
      ∨ b = 45 ∨ b = 95 ∨ b = 46 ∨ b = 126 then [Char.ofNat b]
  else [Char.ofNat 37, upperHexDigit (b / 16), upperHexDigit (b % 16)]

/-- Go's `url.QueryEscape` of a string: escape each UTF-8 byte. -/
def queryEscape (s : String) : String :=
  String.mk ((s.data.map (fun c => ((utf8Bytes c).map escByte).flatten)).flatten)

/-- `encodeJokeURL` from `service.go`: parse `jokeURL`, set query
parameters `firstName`, `lastName` and `limitTo=nerdy` through
`url.Values`, and render the URL.  `url.Values.Encode` emits the keys
in sorted order — `firstName`, `lastName`, `limitTo` — with each value
query-escaped, and `URL.String` appends that query to the base URL. -/
def encodeJokeURL (firstName lastName : String) : String :=
  jokeURL ++ "firstName=" ++ queryEscape firstName
    ++ "&lastName=" ++ queryEscape lastName
    ++ "&limitTo=nerdy"

/-- One upstream HTTP call issued by a front-door `Joke` invocation:
either the name fetch, or the joke fetch with the URL it requests. -/
inductive FetchEvent where
  | nameFetch
  | jokeFetch (url : String)
deriving Repr, DecidableEq

/-- The environment of one front-door `Joke` call: whether the shared
context has been cancelled, the select tie-break used when both the
`ctx.Done()` and the `jokeChan` receive cases are ready (`true` picks
the `Done` case — Go chooses pseudo-randomly), and the responses the
two upstreams would give if called. -/
structure JokeCallEnv where
  cancelled : Bool
  selChoice : Bool
  nameResp : NameHttpResp
  jokeResp : NameResp → JokeHttpResp

/-- `LaffService.Joke` (`service.go` lines 233-258) over the channel
states, modelling the buffered channels as FIFO lists with head = next
item to receive.  Returns the call's result, the new joke channel, the
new name channel, and the trace of upstream fetches issued.  The outer
select receives from `jokeChan` or observes `ctx.Done()`; with neither
ready the default branch runs an inner select that receives from
`nameChan` or, on default, fetches the name and then the joke
directly. -/
def Joke (env : JokeCallEnv) (jokeChan : List String) (nameChan : List NameResp) :
    Except SvcError String × List String × List NameResp × List FetchEvent :=
  match jokeChan with
  | jk :: rest =>
    if env.cancelled && env.selChoice then
      (.error .contextCanceled, jk :: rest, nameChan, [])
    else
      (.ok jk, rest, nameChan, [])
  | [] =>
    if env.cancelled then
      (.error .contextCanceled, [], nameChan, [])
    else
      match nameChan with
      | nm :: nrest =>
        (fetchJokeCore (env.jokeResp nm), [], nrest,
          [FetchEvent.jokeFetch (encodeJokeURL nm.Name nm.Surname)])
      | [] =>
        match fetchNameCore env.nameResp with
        | .error e => (.error e, [], [], [FetchEvent.nameFetch])
        | .ok name =>
          (fetchJokeCore (env.jokeResp name), [], [],
            [FetchEvent.nameFetch,
              FetchEvent.jokeFetch (encodeJokeURL name.Name name.Surname)])

/-- What a name-producer goroutine does next after a fetch returns
(`service.go` lines 131-160): push the name, sleep `retry + 5` seconds
and retry the same fetch (rate-limit case), retry immediately, or
terminate. -/
inductive ProducerAction where
  | pushName (n : NameResp)
  | sleepRetry (seconds : Int)
  | retryNow
  | terminate
deriving Repr, DecidableEq

/-- The error-handling step of the name-producer goroutine of
`RunCache` (`service.go` lines 131-160): on success proceed to push; on
`rateLimitError` sleep `v.retry + 5` seconds and `goto Loop` without
touching the counter; on any other error increment `nameErrs` and
terminate when it reaches `maxErrs`, else retry.  Returns the updated
`nameErrs` and the action taken. -/
def producerHandleFetch (nameErrs : Nat) (res : Except SvcError NameResp) :
    Nat × ProducerAction :=
  match res with
  | .ok n => (nameErrs, .pushName n)
  | .error (.rateLimitError r) => (nameErrs, .sleepRetry (r + 5))
  | .error _ =>
    let e := nameErrs + 1
    if e = maxErrs then (e, .terminate) else (e, .retryNow)

/-- What a joke-composer goroutine does next after a joke fetch
returns (`service.go` lines 201-212): push the composed joke, retry
the same name, or terminate. -/
inductive ComposerAction where
  | pushJoke (j : String)
  | retrySameName
  | terminate
deriving Repr, DecidableEq

/-- The error-handling step of the joke-composer goroutine of
`RunCache` (`service.go` lines 201-212), taking both counters because
the code reads both: on failure it increments `jokeErrs` but then
tests `ls.nameErrs == maxErrs` — the name-stage counter, exactly as
written at line 206 — to decide termination, else retries the same
name.  Returns the updated `jokeErrs` and the action taken. -/
def composerHandleFetch (nameErrs jokeErrs : Nat) (res : Except SvcError String) :
    Nat × ComposerAction :=
  match res with
  | .ok j => (jokeErrs, .pushJoke j)
  | .error _ =>
    let je := jokeErrs + 1
    if nameErrs = maxErrs then (je, .terminate) else (je, .retrySameName)

/-- The pacing-interval computation of `RunCache` (`service.go` line
117): `time.Duration((60 / (6 / ls.numWorkers))) * time.Second` in Go
integer arithmetic.  When `6 / numWorkers` truncates to `0` (any
`numWorkers ≥ 7`), the Go expression divides by zero and panics at
runtime; that failure is modelled as `none`.  Otherwise the interval in
seconds is returned. -/
def sleepIntervalSeconds (numWorkers : Nat) : Option Nat :=
  if 6 / numWorkers = 0 then none
  else some (60 / (6 / numWorkers))

/-- A concrete front-door environment exercising the cache-miss path:
not cancelled, the name service answers 200 with a decoded record, the
joke service answers 200 with a joke built from the name. -/
def envC1 : JokeCallEnv where
  cancelled := false
  selChoice := false
  nameResp := ⟨200, "", some ⟨"Ada", "Lovelace", "female", "UK"⟩⟩
  jokeResp := fun n => ⟨200, some ⟨"success", ⟨1, n.Name ++ " rocks", []⟩⟩⟩

/-- A concrete front-door environment in which the shared context has
been cancelled and, when the joke-channel receive is also ready, the
select picks the receive case. -/
def envC5 : JokeCallEnv where
  cancelled := true
  selChoice := false
  nameResp := ⟨200, "", none⟩
  jokeResp := fun _ => ⟨200, none⟩

/-- A concrete front-door environment whose joke upstream answers 200
with a fixed joke, used with a name record containing reserved URL
characters. -/
def envC7 : JokeCallEnv where
  cancelled := false
  selChoice := false
  nameResp := ⟨200, "", none⟩
  jokeResp := fun _ => ⟨200, some ⟨"success", ⟨42, "Chuck strikes", []⟩⟩⟩

/-- A concrete front-door environment whose name upstream answers 429
with header `Retry-After: 3`. -/
def envC8 : JokeCallEnv where
  cancelled := false
  selChoice := false
  nameResp := ⟨429, "3", none⟩
  jokeResp := fun _ => ⟨200, none⟩

/-- A concrete front-door environment whose joke upstream answers 200
with a body that decodes but carries an empty `value.joke` and a
`type` field that is not success. -/
def envC9 : JokeCallEnv where
  cancelled := false
  selChoice := false
  nameResp := ⟨200, "", none⟩
  jokeResp := fun _ => ⟨200, some ⟨"error", ⟨0, "", []⟩⟩⟩

/-- A concrete front-door environment whose joke upstream answers 500,
so a synchronous joke fetch fails. -/
def envC10 : JokeCallEnv where
  cancelled := false
  selChoice := false
  nameResp := ⟨200, "", none⟩
  jokeResp := fun _ => ⟨500, none⟩

/-- C1: when the shared context has not been cancelled, a `Joke` call
first does a non-blocking receive on the joke channel and returns a
cached joke with no upstream call; failing that it does a non-blocking
receive on the name channel and, on a hit, issues exactly one
synchronous joke fetch with that name and returns its result; failing
both it issues exactly one synchronous name fetch and, when that
succeeds, exactly one synchronous joke fetch, returning the result —
no path retries any fetch. -/
theorem C1_front_door_protocol (env : JokeCallEnv) (jq : List String)
    (nq : List NameResp) (h : env.cancelled = false) :
    (∀ jk rest, jq = jk :: rest → Joke env jq nq = (.ok jk, rest, nq, [])) ∧
    (∀ nm nrest, jq = [] → nq = nm :: nrest →
      Joke env jq nq = (fetchJokeCore (env.jokeResp nm), [], nrest,
        [FetchEvent.jokeFetch (encodeJokeURL nm.Name nm.Surname)])) ∧
    (∀ name, jq = [] → nq = [] → fetchNameCore env.nameResp = .ok name →
      Joke env jq nq = (fetchJokeCore (env.jokeResp name), [], [],
        [FetchEvent.nameFetch,
          FetchEvent.jokeFetch (encodeJokeURL name.Name name.Surname)])) ∧
    (∀ e, jq = [] → nq = [] → fetchNameCore env.nameResp = .error e →
      Joke env jq nq = (.error e, [], [], [FetchEvent.nameFetch])) := by
  refine ⟨?_, ?_, ?_, ?_⟩
  · intro jk rest hq
    subst hq
    simp [Joke, h]
  · intro nm nrest hq hn
    subst hq
    subst hn
    simp [Joke, h]
  · intro name hq hn hf
    subst hq
    subst hn
    simp [Joke, h, hf]
  · intro e hq hn hf
    subst hq
    subst hn
    simp [Joke, h, hf]

/-- C1 witness: on the full-miss path with both channels empty, the
concrete environment yields one name fetch followed by one joke fetch
and the composed joke. -/
theorem C1_witness :
    envC1.cancelled = false ∧
    Joke envC1 [] [] = (.ok "Ada rocks", [], [],
      [FetchEvent.nameFetch, FetchEvent.jokeFetch (encodeJokeURL "Ada" "Lovelace")]) :=
  ⟨rfl, by
    have h := (C1_front_door_protocol envC1 [] [] rfl).2.2.1
      ⟨"Ada", "Lovelace", "female", "UK"⟩ rfl rfl rfl
    exact h.trans rfl⟩

/-- C2 (code bug): the joke-composer loop increments the joke-stage
counter but tests the NAME-stage counter against `maxErrs`
(`service.go` line 206), so with `nameErrs = 0` the composer keeps
retrying even at the 50th consecutive joke failure, and with
`nameErrs = 50` it terminates on the very first joke failure; the
name producer, for contrast, terminates exactly when its own counter
reaches `maxErrs`. -/
theorem C2_composer_checks_wrong_counter :
    composerHandleFetch 0 49 (.error .jokeUnmarshalError) = (50, .retrySameName) ∧
    composerHandleFetch 50 0 (.error .jokeUnmarshalError) = (1, .terminate) ∧
    producerHandleFetch 49 (.error .nameUnmarshalError) = (50, .terminate) :=
  ⟨rfl, rfl, rfl⟩

/-- C3: when a name fetch fails with `rateLimitError` carrying retry
`r`, the producer sleeps exactly `r + 5` seconds and then retries the
same fetch, and the name-stage error counter is left unchanged. -/
theorem C3_rate_limit_backoff (errs : Nat) (r : Int) :
    producerHandleFetch errs (.error (.rateLimitError r)) =
      (errs, .sleepRetry (r + 5)) :=
  rfl

/-- C4 counterexample: `workerCount = 7` satisfies the claimed
invariant `workerCount ≥ 1`, yet the pacing-interval computation
divides by zero (`6 / 7 = 0` in Go integer arithmetic), so it is not
well-defined for every such configuration. -/
theorem C4_counterexample : 1 ≤ 7 ∧ sleepIntervalSeconds 7 = none :=
  ⟨by decide, rfl⟩

/-- C4 amended: for every configuration with `1 ≤ workerCount ≤ 6`
(and `queueCapacity ≥ 1`), the pacing interval is a well-defined,
positive number of seconds. -/
theorem C4_interval_defined (w q : Nat) (hw : 1 ≤ w) (hw6 : w ≤ 6)
    (_hq : 1 ≤ q) : ∃ s, sleepIntervalSeconds w = some s ∧ 0 < s := by
  interval_cases w
  · exact ⟨10, rfl, by decide⟩
  · exact ⟨20, rfl, by decide⟩
  · exact ⟨30, rfl, by decide⟩
  · exact ⟨60, rfl, by decide⟩
  · exact ⟨60, rfl, by decide⟩
  · exact ⟨60, rfl, by decide⟩

/-- C4 witness: the default configuration of two workers yields a
defined, positive pacing interval. -/
theorem C4_witness :
    1 ≤ 2 ∧ 2 ≤ 6 ∧ 1 ≤ 5 ∧
    ∃ s, sleepIntervalSeconds 2 = some s ∧ 0 < s :=
  ⟨by decide, by decide, by decide,
    C4_interval_defined 2 5 (by decide) (by decide) (by decide)⟩

/-- C5 counterexample: with the context cancelled and a joke already
in the joke channel, the select may pick the channel receive, so the
call returns the cached joke and not a cancellation outcome —
cancellation does not take precedence over an available joke. -/
theorem C5_counterexample :
    envC5.cancelled = true ∧
    Joke envC5 ["cached joke"] [] = (.ok "cached joke", ["cached joke"].tail, [], []) ∧
    ∀ e : SvcError, (Joke envC5 ["cached joke"] []).1 ≠ .error e := by
  refine ⟨rfl, rfl, ?_⟩
  intro e h
  exact Except.noConfusion h

/-- C5 amended: once cancellation has fired, `Joke` returns
immediately with no upstream fetch; it returns either the cancellation
outcome or, when a joke is already available in the joke channel,
possibly that joke (the select chooses among its ready cases); when
the joke channel is empty the result is exactly the cancellation
outcome, so cancellation takes precedence over the name-channel and
synchronous-fetch paths. -/
theorem C5_cancellation_no_block (env : JokeCallEnv) (jq : List String)
    (nq : List NameResp) (h : env.cancelled = true) :
    ((Joke env jq nq).2.2.2 = [] ∧
      ((Joke env jq nq).1 = .error .contextCanceled ∨
        ∃ jk rest, jq = jk :: rest ∧ Joke env jq nq = (.ok jk, rest, nq, []))) ∧
    (jq = [] → Joke env jq nq = (.error .contextCanceled, [], nq, [])) := by
  cases jq with
  | nil =>
    refine ⟨⟨by simp [Joke, h], Or.inl (by simp [Joke, h])⟩, fun _ => by simp [Joke, h]⟩
  | cons jk rest =>
    refine ⟨?_, fun hj => List.noConfusion hj⟩
    cases hs : env.selChoice with
    | true =>
      exact ⟨by simp [Joke, h, hs], Or.inl (by simp [Joke, h, hs])⟩
    | false =>
      exact ⟨by simp [Joke, h, hs], Or.inr ⟨jk, rest, rfl, by simp [Joke, h, hs]⟩⟩

/-- C5 witness: with the context cancelled and the joke channel empty,
the call returns exactly the cancellation outcome with no fetch. -/
theorem C5_witness :
    envC5.cancelled = true ∧
    Joke envC5 [] [] = (.error .contextCanceled, [], [], []) :=
  ⟨rfl, (C5_cancellation_no_block envC5 [] [] rfl).2 rfl⟩

/-- C6: on a 429 name-service response the fetch returns the
distinguished `rateLimitError` whose delay is the `Retry-After` header
parsed by `strconv.Atoi`, or 90 seconds when parsing fails (an absent
header reads as the empty string, which does not parse); every other
non-200 status yields the generic error carrying the status code and
its reason phrase and is never a rate-limit error. -/
theorem C6_name_status_handling (resp : NameHttpResp) :
    (∀ v, resp.status = 429 → goAtoi resp.retryAfter = some v →
      fetchNameCore resp = .error (.rateLimitError v)) ∧
    (resp.status = 429 → goAtoi resp.retryAfter = none →
      fetchNameCore resp = .error (.rateLimitError 90)) ∧
    (resp.status ≠ 200 → resp.status ≠ 429 →
      fetchNameCore resp = .error (.nameStatusError resp.status (statusText resp.status)) ∧
      ∀ r, fetchNameCore resp ≠ .error (.rateLimitError r)) ∧
    goAtoi "" = none := by
  refine ⟨?_, ?_, ?_, rfl⟩
  · intro v h429 hat
    simp [fetchNameCore, h429, hat]
  · intro h429 hat
    simp [fetchNameCore, h429, hat, dfltRetry]
  · intro hn200 hn429
    constructor
    · unfold fetchNameCore
      rw [if_pos hn200, if_neg hn429]
    · intro r h
      unfold fetchNameCore at h
      rw [if_pos hn200, if_neg hn429] at h
      simp at h

/-- C6 witness: a 429 response with `Retry-After: 17` yields the
rate-limit error with a 17-second delay. -/
theorem C6_witness :
    (429 : Nat) = 429 ∧ goAtoi "17" = some 17 ∧
    fetchNameCore ⟨429, "17", none⟩ = .error (.rateLimitError 17) :=
  ⟨rfl, rfl, (C6_name_status_handling ⟨429, "17", none⟩).1 17 rfl rfl⟩

/-- C7: a joke fetch for a name record requests the joke endpoint with
query parameters `firstName`, `lastName` (each query-escaped, so
reserved characters in names are encoded) and `limitTo=nerdy`, and on
a 200 response returns exactly the `value.joke` field of the decoded
body; concretely the escaping turns `&` into `%26` and a space into
`+`. -/
theorem C7_joke_request (env : JokeCallEnv) (nm : NameResp) (j : JokeResp)
    (hc : env.cancelled = false) (hr : env.jokeResp nm = ⟨200, some j⟩) :
    Joke env [] [nm] =
      (.ok j.Value.Joke, [], [],
        [FetchEvent.jokeFetch
          (jokeURL ++ "firstName=" ++ queryEscape nm.Name
            ++ "&lastName=" ++ queryEscape nm.Surname ++ "&limitTo=nerdy")]) ∧
    queryEscape "J&J v2.0" = "J%26J+v2.0" := by
  constructor
  · simp [Joke, hc, hr, fetchJokeCore, encodeJokeURL]
  · rfl

/-- C7 witness: a name record with reserved characters produces the
escaped request URL and the decoded joke text. -/
theorem C7_witness :
    envC7.cancelled = false ∧
    envC7.jokeResp ⟨"J&J", "v2.0 x", "", ""⟩ =
      ⟨200, some ⟨"success", ⟨42, "Chuck strikes", []⟩⟩⟩ ∧
    Joke envC7 [] [⟨"J&J", "v2.0 x", "", ""⟩] =
      (.ok "Chuck strikes", [], [],
        [FetchEvent.jokeFetch
          "http://api.icndb.com/jokes/random?firstName=J%26J&lastName=v2.0+x&limitTo=nerdy"]) :=
  ⟨rfl, rfl, by
    have h := (C7_joke_request envC7 ⟨"J&J", "v2.0 x", "", ""⟩
      ⟨"success", ⟨42, "Chuck strikes", []⟩⟩ rfl rfl).1
    exact h.trans rfl⟩

/-- C8: a rate-limit error from the synchronous name fetch on the
full-miss path is returned to the caller exactly as produced — one
fetch, no retry, no conversion — and a joke fetch can never produce a
rate-limit error, so no other error on the miss paths is converted
into one. -/
theorem C8_rate_limit_surfaced (env : JokeCallEnv) (r : Int)
    (hc : env.cancelled = false)
    (hn : fetchNameCore env.nameResp = .error (.rateLimitError r)) :
    Joke env [] [] = (.error (.rateLimitError r), [], [], [FetchEvent.nameFetch]) ∧
    ∀ (resp : JokeHttpResp) (q : Int),
      fetchJokeCore resp ≠ .error (.rateLimitError q) := by
  constructor
  · simp [Joke, hc, hn]
  · intro resp q h
    unfold fetchJokeCore at h
    split at h
    · simp at h
    · split at h <;> simp at h

/-- C8 witness: a 429 with `Retry-After: 3` on the miss path surfaces
as the rate-limit error with a 3-second delay after exactly one name
fetch. -/
theorem C8_witness :
    envC8.cancelled = false ∧
    fetchNameCore envC8.nameResp = .error (.rateLimitError 3) ∧
    Joke envC8 [] [] = (.error (.rateLimitError 3), [], [], [FetchEvent.nameFetch]) :=
  ⟨rfl, rfl, (C8_rate_limit_surfaced envC8 3 rfl rfl).1⟩

/-- C9: a 200 joke response whose body decodes but holds no joke text
(the `type` field is never inspected) makes the joke fetch — and hence
a `Joke` call served by it — return the empty string with no error. -/
theorem C9_empty_joke_success (env : JokeCallEnv) (nm : NameResp) (j : JokeResp)
    (hc : env.cancelled = false) (hr : env.jokeResp nm = ⟨200, some j⟩)
    (hj : j.Value.Joke = "") :
    fetchJokeCore (env.jokeResp nm) = .ok "" ∧ (Joke env [] [nm]).1 = .ok "" := by
  constructor
  · rw [hr]
    simp [fetchJokeCore, hj]
  · simp [Joke, hc, hr, fetchJokeCore, hj]

/-- C9 witness: a decoded body with `type = "error"` and an empty
`value.joke` yields a successful empty-string result. -/
theorem C9_witness :
    envC9.cancelled = false ∧
    envC9.jokeResp ⟨"A", "B", "", ""⟩ = ⟨200, some ⟨"error", ⟨0, "", []⟩⟩⟩ ∧
    (⟨"error", ⟨0, "", []⟩⟩ : JokeResp).Value.Joke = "" ∧
    (Joke envC9 [] [⟨"A", "B", "", ""⟩]).1 = .ok "" :=
  ⟨rfl, rfl, rfl,
    (C9_empty_joke_success envC9 ⟨"A", "B", "", ""⟩
      ⟨"error", ⟨0, "", []⟩⟩ rfl rfl rfl).2⟩

/-- C10: on the partial-hit path, when the synchronous joke fetch for
the popped name fails, the call returns that error and the popped name
is gone — the new name channel is the tail, with nothing pushed
back. -/
theorem C10_partial_hit_discards_name (env : JokeCallEnv) (nm : NameResp)
    (rest : List NameResp) (e : SvcError)
    (hc : env.cancelled = false)
    (hf : fetchJokeCore (env.jokeResp nm) = .error e) :
    Joke env [] (nm :: rest) =
      (.error e, [], rest, [FetchEvent.jokeFetch (encodeJokeURL nm.Name nm.Surname)]) := by
  simp [Joke, hc, hf]

/-- C10 witness: a 500 joke response on the partial-hit path surfaces
the generic joke-fetch error and consumes the popped name. -/
theorem C10_witness :
    envC10.cancelled = false ∧
    fetchJokeCore (envC10.jokeResp ⟨"A", "B", "", ""⟩) =
      .error (.jokeStatusError 500 (statusText 500)) ∧
    Joke envC10 [] [⟨"A", "B", "", ""⟩] =
      (.error (.jokeStatusError 500 (statusText 500)), [], [],
        [FetchEvent.jokeFetch (encodeJokeURL "A" "B")]) :=
  ⟨rfl, rfl,
    C10_partial_hit_discards_name envC10 ⟨"A", "B", "", ""⟩ []
      (.jokeStatusError 500 (statusText 500)) rfl rfl⟩

end Laff
